import Mathlib

/-!
# Verification of the istio-dns01-bind9 multi-server DNS-01 solver

Shallow embedding of the Go sources of `github.com/rieset/istio-dns01-bind9`:

* `operator/internal/dns/rfc2136.go` — the RFC 2136 client (`RFC2136Client`)
  that builds, TSIG-stamps and sends one dynamic update to one server;
* `operator/internal/webhook/multi_server.go` — the fan-out coordinator
  (`MultiServerDNS`) that runs the same mutation against every configured
  server and applies a quorum rule;
* `operator/internal/webhook/dns01_handler.go` — the cert-manager webhook
  solver (`DNS01Solver`) with `parseConfig`, `getTSIGSecret`, `Present`
  and `CleanUp`.

The network, the wall clock and the Kubernetes secret store are modelled as
an explicit environment (`Env`).  Each embedded operation returns, besides
the Go function's result, the trace of structured log events it emits and
the list of wire exchanges it performs, so that properties about logging,
short-circuiting and transport behaviour are expressible.  The concurrent
fan-out of `MultiServerDNS` is determinised by collecting per-server
results in the configured server order; only the multiset of per-server
outcomes matters to every property proved below, so this determinisation
is faithful.

Behaviour of the `github.com/miekg/dns` v1.1.59 library functions that the
client calls (`Msg.SetUpdate`, `Msg.Insert`, `Msg.RemoveRRset`,
`Msg.SetTsig`, `Client.ExchangeContext`, `dns.Fqdn`) is embedded from that
library's sources: in particular `Insert` forces class `IN` on each record,
`RemoveRRset` emits one class-`ANY`, TTL-0, empty-rdata record per input,
and `Client.ExchangeContext` on a default client performs exactly one UDP
exchange and never retries over TCP on truncation.
-/

set_option autoImplicit false

namespace IstioDns

/-! ## DNS wire-format constants (from github.com/miekg/dns msg.go/types.go) -/

def opcodeUpdate : Nat := 5
def typeSOA : Nat := 6
def typeTXT : Nat := 16
def classINET : Nat := 1
def classANY : Nat := 255

/-- `dns.Fqdn` from miekg/dns: append a trailing dot unless the name is
already fully qualified (ends in a dot; the library additionally treats an
escaped `\.` as not qualifying, an escaping subtlety immaterial to every
property below). -/
def dnsFqdn (s : String) : String :=
  if s.data.getLast? = some '.' then s else s ++ "."

/-- Go's `uint32(ttl)` conversion of a (possibly negative) `int`:
the value modulo `2^32`. -/
def uint32ofInt (t : Int) : Nat :=
  (t % (2 ^ 32 : Int)).toNat

/-- `dns.RcodeToString` (the entries relevant to updates; the Go map yields
the empty string for an absent key). -/
def rcodeToString (rcode : Nat) : String :=
  if rcode = 0 then "NOERROR"
  else if rcode = 1 then "FORMERR"
  else if rcode = 2 then "SERVFAIL"
  else if rcode = 3 then "NXDOMAIN"
  else if rcode = 4 then "NOTIMP"
  else if rcode = 5 then "REFUSED"
  else if rcode = 6 then "YXDOMAIN"
  else if rcode = 7 then "YXRRSET"
  else if rcode = 8 then "NXRRSET"
  else if rcode = 9 then "NOTAUTH"
  else if rcode = 10 then "NOTZONE"
  else ""

/-- Zone-section entry (`dns.Question`). -/
structure Question where
  name : String
  qtype : Nat
  qclass : Nat
  deriving DecidableEq, Repr

/-- A resource record of the Update section.  `rdata` holds the TXT
character-strings; the class-`ANY` "delete RRset" record has empty rdata. -/
structure UpdateRR where
  name : String
  rrtype : Nat
  rrclass : Nat
  ttl : Nat
  rdata : List String
  deriving DecidableEq, Repr

/-- The TSIG RR appended by `Msg.SetTsig` (MAC is computed at send time by
the library from the secret; the fields below are the ones set by the
embedded code). -/
structure TsigRR where
  keyName : String
  algorithm : String
  fudge : Nat
  timeSigned : Int
  deriving DecidableEq, Repr

/-- A dynamic-update DNS message (the sections the embedded code touches). -/
structure Msg where
  opcode : Nat
  zoneSection : List Question
  updateSection : List UpdateRR
  tsig : Option TsigRR
  deriving DecidableEq, Repr

/-- `Msg.SetUpdate(z)`: opcode UPDATE, Zone section `{z, SOA, IN}`. -/
def setUpdate (z : String) : Msg :=
  { opcode := opcodeUpdate
    zoneSection := [{ name := z, qtype := typeSOA, qclass := classINET }]
    updateSection := []
    tsig := none }

/-- `Msg.Insert(rr)`: RFC 2136 §2.5.1 — the Ns section becomes the given
records with class forced to `IN`. -/
def msgInsert (m : Msg) (rrs : List UpdateRR) : Msg :=
  { m with updateSection := rrs.map (fun r => { r with rrclass := classINET }) }

/-- `Msg.RemoveRRset(rr)`: RFC 2136 §2.5.2 — for each input record the Ns
section gets one record `{name, rrtype, class ANY, ttl 0, empty rdata}`. -/
def msgRemoveRRset (m : Msg) (rrs : List UpdateRR) : Msg :=
  { m with updateSection := rrs.map (fun r =>
      { name := r.name, rrtype := r.rrtype, rrclass := classANY, ttl := 0, rdata := [] }) }

/-- `Msg.SetTsig(keyName, alg, fudge, timeSigned)`. -/
def msgSetTsig (m : Msg) (keyName alg : String) (fudge : Nat) (timeSigned : Int) : Msg :=
  { m with tsig := some { keyName := keyName, algorithm := alg, fudge := fudge,
                          timeSigned := timeSigned } }

/-! ## Environment: network, clock, secret store -/

/-- What a DNS server's reply exposes to the embedded code: the response
code and the TC (truncated) header bit. -/
structure Reply where
  rcode : Nat
  truncated : Bool
  deriving DecidableEq, Repr

inductive Transport where
  | udp
  | tcp
  deriving DecidableEq, Repr

/-- One wire exchange performed by `Client.ExchangeContext`: transport,
`host:port` address, the message handed over, and the TSIG key material the
client configured for signing (`Client.TsigSecret`). -/
structure ExchangeCall where
  transport : Transport
  addr : String
  msg : Msg
  tsigSecret : String
  deriving DecidableEq, Repr

/-- External world: wall clock, per-server network outcome (a transport
error string, or the server's reply), and the result the Kubernetes secret
store would hand back for the solver's TSIG-secret lookup. -/
structure Env where
  now : Int
  net : String → Except String Reply
  secretResult : Except String String

/-- One structured log event: message plus (field, value) pairs. -/
abbrev LogEntry := String × List (String × String)

def logEntry (msg : String) (fields : List (String × String)) : LogEntry :=
  (msg, fields)

/-! ## RFC2136Client (operator/internal/dns/rfc2136.go) -/

structure RFC2136Client where
  server : String
  zone : String
  tsigKey : String
  tsigAlg : String
  tsigSec : String
  timeout : Nat
  deriving Repr

/-- `NewRFC2136Client` — per-call timeout 10 s. -/
def NewRFC2136Client (server zone tsigKey tsigAlg tsigSec : String) : RFC2136Client :=
  { server := server, zone := zone, tsigKey := tsigKey, tsigAlg := tsigAlg,
    tsigSec := tsigSec, timeout := 10 }

/-- Result of one embedded client call: the log events it emitted, the wire
exchanges it performed, and the Go function's returned error (if any). -/
structure ClientRun where
  logs : List LogEntry
  calls : List ExchangeCall
  result : Except String Unit

/-- The "Create DNS message" block of `RFC2136Client.AddTXTRecord`:
`SetUpdate(Fqdn(zone))`, `Insert` of one TXT record
`{Fqdn(fqdn), TXT, IN, uint32(ttl), [value]}`, then
`SetTsig(tsigKey, tsigAlg, 300, now)`. -/
def RFC2136Client.buildAddMsg (c : RFC2136Client) (now : Int)
    (fqdn value : String) (ttl : Int) : Msg :=
  msgSetTsig
    (msgInsert (setUpdate (dnsFqdn c.zone))
      [{ name := dnsFqdn fqdn, rrtype := typeTXT, rrclass := classINET,
         ttl := uint32ofInt ttl, rdata := [value] }])
    c.tsigKey c.tsigAlg 300 now

/-- The "Create DNS message" block of `RFC2136Client.DeleteTXTRecord`:
`SetUpdate(Fqdn(zone))`, `RemoveRRset` of one TXT record at `Fqdn(fqdn)`,
then `SetTsig(tsigKey, tsigAlg, 300, now)`. -/
def RFC2136Client.buildDeleteMsg (c : RFC2136Client) (now : Int)
    (fqdn : String) : Msg :=
  msgSetTsig
    (msgRemoveRRset (setUpdate (dnsFqdn c.zone))
      [{ name := dnsFqdn fqdn, rrtype := typeTXT, rrclass := classINET,
         ttl := 0, rdata := [] }])
    c.tsigKey c.tsigAlg 300 now

/-- `RFC2136Client.AddTXTRecord`: build an UPDATE inserting one TXT record,
TSIG-stamp it, send it once over UDP to `server:53` via
`Client.ExchangeContext` (no TCP retry), and accept iff the reply's RCODE
is 0. -/
def RFC2136Client.AddTXTRecord (c : RFC2136Client) (env : Env)
    (fqdn value : String) (ttl : Int) : ClientRun :=
  let entry := logEntry "Adding TXT record"
    [("fqdn", fqdn), ("value", value), ("server", c.server), ("zone", c.zone)]
  let msg := c.buildAddMsg env.now fqdn value ttl
  let call : ExchangeCall :=
    { transport := Transport.udp, addr := c.server ++ ":53", msg := msg,
      tsigSecret := c.tsigSec }
  match env.net c.server with
  | Except.error e =>
      { logs := [entry, logEntry "Failed to send DNS update"
          [("fqdn", fqdn), ("server", c.server), ("error", e)]]
        calls := [call]
        result := Except.error ("failed to send DNS update to " ++ c.server ++ ": " ++ e) }
  | Except.ok reply =>
      if reply.rcode ≠ 0 then
        { logs := [entry, logEntry "DNS update failed"
            [("fqdn", fqdn), ("server", c.server), ("rcode", toString reply.rcode),
             ("rcode_name", rcodeToString reply.rcode)]]
          calls := [call]
          result := Except.error ("DNS update failed: " ++ rcodeToString reply.rcode
            ++ " (rcode: " ++ toString reply.rcode ++ ")") }
      else
        { logs := [entry, logEntry "TXT record added successfully"
            [("fqdn", fqdn), ("server", c.server)]]
          calls := [call]
          result := Except.ok () }

/-- `RFC2136Client.DeleteTXTRecord`: build an UPDATE removing the TXT RRset
at `fqdn` (via `Msg.RemoveRRset`), TSIG-stamp it, send it once over UDP to
`server:53`, and accept iff the reply's RCODE is 0.  Takes no value
argument. -/
def RFC2136Client.DeleteTXTRecord (c : RFC2136Client) (env : Env)
    (fqdn : String) : ClientRun :=
  let entry := logEntry "Deleting TXT record"
    [("fqdn", fqdn), ("server", c.server), ("zone", c.zone)]
  let msg := c.buildDeleteMsg env.now fqdn
  let call : ExchangeCall :=
    { transport := Transport.udp, addr := c.server ++ ":53", msg := msg,
      tsigSecret := c.tsigSec }
  match env.net c.server with
  | Except.error e =>
      { logs := [entry, logEntry "Failed to send DNS delete"
          [("fqdn", fqdn), ("server", c.server), ("error", e)]]
        calls := [call]
        result := Except.error ("failed to send DNS delete to " ++ c.server ++ ": " ++ e) }
  | Except.ok reply =>
      if reply.rcode ≠ 0 then
        { logs := [entry, logEntry "DNS delete failed"
            [("fqdn", fqdn), ("server", c.server), ("rcode", toString reply.rcode),
             ("rcode_name", rcodeToString reply.rcode)]]
          calls := [call]
          result := Except.error ("DNS delete failed: " ++ rcodeToString reply.rcode
            ++ " (rcode: " ++ toString reply.rcode ++ ")") }
      else
        { logs := [entry, logEntry "TXT record deleted successfully"
            [("fqdn", fqdn), ("server", c.server)]]
          calls := [call]
          result := Except.ok () }

/-! ## MultiServerDNS (operator/internal/webhook/multi_server.go) -/

structure MultiServerDNS where
  servers : List String
  zone : String
  tsigKey : String
  tsigAlg : String
  tsigSec : String
  minSuccess : Nat

/-- `NewMultiServerDNS`: the success threshold is computed once at
construction as `len(servers)/2 + 1`, clamped below by 1. -/
def NewMultiServerDNS (servers : List String) (zone tsigKey tsigAlg tsigSec : String) :
    MultiServerDNS :=
  let minSuccess := servers.length / 2 + 1
  let minSuccess := if minSuccess < 1 then 1 else minSuccess
  { servers := servers, zone := zone, tsigKey := tsigKey, tsigAlg := tsigAlg,
    tsigSec := tsigSec, minSuccess := minSuccess }

/-- Whether the embedded Go call returned `nil` error. -/
def exceptOk {ε α : Type} : Except ε α → Bool
  | Except.ok _ => true
  | Except.error _ => false

/-- The structured payload of the aggregate Add failure
`fmt.Errorf("only %d/%d servers updated successfully (minimum %d required): %v", ...)`. -/
structure AggError where
  successCount : Nat
  totalServers : Nat
  minRequired : Nat
  errors : List String
  deriving DecidableEq, Repr

/-- Result of one coordinator call: every log event (entry log, the
per-server client and coordinator logs in server order, the aggregate
logs), the per-server client runs, the success count, the collected
per-server error strings, and the aggregate outcome. -/
structure MultiRun (ε : Type) where
  logs : List LogEntry
  clientRuns : List (String × ClientRun)
  successCount : Nat
  errors : List String
  result : Except ε Unit

/-- Total number of wire exchanges a coordinator call performed. -/
def MultiRun.exchangeCount {ε : Type} (r : MultiRun ε) : Nat :=
  (r.clientRuns.map (fun p => p.2.calls.length)).sum

/-- Per-server goroutine body shared by Add and Delete: run the client
call, then emit the coordinator's per-server success/failure log and the
`"server %s: %w"`-wrapped error (if any). -/
def serverOutcomeLogs (okMsg failMsg fqdn : String) (srv : String) (run : ClientRun) :
    List LogEntry :=
  match run.result with
  | Except.error e =>
      run.logs ++ [logEntry failMsg [("server", srv), ("fqdn", fqdn), ("error", e)]]
  | Except.ok _ =>
      run.logs ++ [logEntry okMsg [("server", srv), ("fqdn", fqdn)]]

/-- `MultiServerDNS.AddTXTRecord`: one `RFC2136Client.AddTXTRecord` per
configured server (all servers attempted, no early exit); the call
succeeds iff at least `minSuccess` per-server calls succeeded, otherwise
it returns the aggregate error naming every failing server. -/
def MultiServerDNS.AddTXTRecord (m : MultiServerDNS) (env : Env)
    (fqdn value : String) (ttl : Int) : MultiRun AggError :=
  let entry := logEntry "Adding TXT record to multiple servers"
    [("fqdn", fqdn), ("value", value), ("servers", String.intercalate "," m.servers)]
  let runs := m.servers.map (fun srv =>
    (srv, (NewRFC2136Client srv m.zone m.tsigKey m.tsigAlg m.tsigSec).AddTXTRecord
      env fqdn value ttl))
  let successCount := (runs.filter (fun p => exceptOk p.2.result)).length
  let errors := runs.filterMap (fun p =>
    match p.2.result with
    | Except.error e => some ("server " ++ p.1 ++ ": " ++ e)
    | Except.ok _ => none)
  let perServerLogs := (m.servers.map (fun srv =>
    serverOutcomeLogs "Successfully added TXT record on server"
      "Failed to add TXT record on server" fqdn srv
      ((NewRFC2136Client srv m.zone m.tsigKey m.tsigAlg m.tsigSec).AddTXTRecord
        env fqdn value ttl))).flatten
  { logs := entry :: perServerLogs
      ++ (if successCount < m.minSuccess then
            [logEntry "Insufficient successful updates"
              [("success_count", toString successCount),
               ("min_required", toString m.minSuccess),
               ("total_servers", toString m.servers.length),
               ("errors", toString errors.length)]]
          else
            (if errors.length > 0 then
              [logEntry "Some servers failed, but minimum success threshold met"
                [("success_count", toString successCount),
                 ("error_count", toString errors.length)]]
             else [])
            ++ [logEntry "TXT record added successfully to multiple servers"
              [("fqdn", fqdn), ("success_count", toString successCount),
               ("total_servers", toString m.servers.length)]])
    clientRuns := runs
    successCount := successCount
    errors := errors
    result :=
      if successCount < m.minSuccess then
        Except.error
          { successCount := successCount, totalServers := m.servers.length,
            minRequired := m.minSuccess, errors := errors }
      else Except.ok () }

/-- `MultiServerDNS.DeleteTXTRecord`: one `RFC2136Client.DeleteTXTRecord`
per configured server; succeeds iff at least one per-server call
succeeded, otherwise returns `"failed to delete on all servers"` carrying
every per-server error. -/
def MultiServerDNS.DeleteTXTRecord (m : MultiServerDNS) (env : Env)
    (fqdn : String) : MultiRun (List String) :=
  let entry := logEntry "Deleting TXT record from multiple servers"
    [("fqdn", fqdn), ("servers", String.intercalate "," m.servers)]
  let runs := m.servers.map (fun srv =>
    (srv, (NewRFC2136Client srv m.zone m.tsigKey m.tsigAlg m.tsigSec).DeleteTXTRecord
      env fqdn))
  let successCount := (runs.filter (fun p => exceptOk p.2.result)).length
  let errors := runs.filterMap (fun p =>
    match p.2.result with
    | Except.error e => some ("server " ++ p.1 ++ ": " ++ e)
    | Except.ok _ => none)
  let perServerLogs := (m.servers.map (fun srv =>
    serverOutcomeLogs "Successfully deleted TXT record on server"
      "Failed to delete TXT record on server" fqdn srv
      ((NewRFC2136Client srv m.zone m.tsigKey m.tsigAlg m.tsigSec).DeleteTXTRecord
        env fqdn))).flatten
  { logs := entry :: perServerLogs
      ++ (if successCount = 0 then
            [logEntry "Failed to delete TXT record on all servers"
              [("total_servers", toString m.servers.length),
               ("errors", toString errors.length)]]
          else
            (if errors.length > 0 then
              [logEntry "Some servers failed during deletion"
                [("success_count", toString successCount),
                 ("error_count", toString errors.length)]]
             else [])
            ++ [logEntry "TXT record deleted successfully from multiple servers"
              [("fqdn", fqdn), ("success_count", toString successCount),
               ("total_servers", toString m.servers.length)]])
    clientRuns := runs
    successCount := successCount
    errors := errors
    result := if successCount = 0 then Except.error errors else Except.ok () }

/-! ## DNS01Solver (operator/internal/webhook/dns01_handler.go) -/

/-- The webhook configuration struct (`Config`), after JSON decoding. -/
structure Config where
  servers : List String
  zone : String
  tsigKeyName : String
  tsigAlgorithm : String
  tsigSecretName : String
  tsigSecretKey : String
  ttl : Int
  deriving DecidableEq, Repr

/-- A well-formed JSON configuration document: each field either absent
(`none`, leaving the Go zero/default value in place) or present.  A `nil`
or empty raw blob is modelled as `none` at the `parseConfig` call site. -/
structure RawConfig where
  servers : Option (List String)
  zone : Option String
  tsigKeyName : Option String
  tsigAlgorithm : Option String
  tsigSecretName : Option String
  tsigSecretKey : Option String
  ttl : Option Int
  deriving DecidableEq, Repr

/-- `DNS01Solver.parseConfig`: start from the defaults
`{ttl 60, tsigAlgorithm "hmac-sha256", tsigSecretKey "secret"}`, overlay
the document's fields, then require a non-empty server list and non-empty
`zone`, `tsigKeyName`, `tsigSecretName`. -/
def parseConfig (cfgJSON : Option RawConfig) : Except String Config :=
  match cfgJSON with
  | none => Except.error "config is empty"
  | some raw =>
      let config : Config :=
        { servers := raw.servers.getD []
          zone := raw.zone.getD ""
          tsigKeyName := raw.tsigKeyName.getD ""
          tsigAlgorithm := raw.tsigAlgorithm.getD "hmac-sha256"
          tsigSecretName := raw.tsigSecretName.getD ""
          tsigSecretKey := raw.tsigSecretKey.getD "secret"
          ttl := raw.ttl.getD 60 }
      if config.servers.length = 0 then Except.error "servers list is required"
      else if config.zone = "" then Except.error "zone is required"
      else if config.tsigKeyName = "" then Except.error "tsigKeyName is required"
      else if config.tsigSecretName = "" then Except.error "tsigSecretName is required"
      else Except.ok config

/-- The solver: `client` is set by `Initialize`; `initialized` models
`s.client != nil`. -/
structure DNS01Solver where
  initialized : Bool

/-- The inbound `ChallengeRequest` fields the solver reads. -/
structure ChallengeRequest where
  resolvedFQDN : String
  key : String
  resourceNamespace : String
  config : Option RawConfig

/-- `DNS01Solver.getTSIGSecret`: fail if the Kubernetes client is not
initialized (no store access), otherwise perform one secret-store lookup
(the store's answer is `env.secretResult`).  Returns the secret (or the
wrapped error) together with the number of store lookups performed. -/
def DNS01Solver.getTSIGSecret (s : DNS01Solver) (env : Env)
    (ns secretName : String) : Except String String × Nat :=
  if !s.initialized then
    (Except.error "kubernetes client not initialized", 0)
  else
    match env.secretResult with
    | Except.error e =>
        (Except.error ("failed to get secret " ++ ns ++ "/" ++ secretName ++ ": " ++ e), 1)
    | Except.ok v => (Except.ok v, 1)

/-- Go's `%v` rendering of the aggregate Add error of
`MultiServerDNS.AddTXTRecord`. -/
def AggError.render (e : AggError) : String :=
  "only " ++ toString e.successCount ++ "/" ++ toString e.totalServers
    ++ " servers updated successfully (minimum " ++ toString e.minRequired
    ++ " required): [" ++ String.intercalate " " e.errors ++ "]"

/-- Go's `%v` rendering of the aggregate Delete error of
`MultiServerDNS.DeleteTXTRecord`. -/
def renderDeleteError (errors : List String) : String :=
  "failed to delete on all servers: [" ++ String.intercalate " " errors ++ "]"

/-- Result of one `Present`/`CleanUp` call: the log events, the number of
secret-store lookups, the wire exchanges performed, and the returned
error (if any). -/
structure SolverRun where
  logs : List LogEntry
  secretLookups : Nat
  exchanges : List ExchangeCall
  result : Except String Unit

/-- `DNS01Solver.Present`: log entry, parse the configuration, resolve the
TSIG secret, build a `MultiServerDNS` and invoke `AddTXTRecord` with the
challenge key as value; each failing stage returns its wrapped error
without reaching the later stages. -/
def DNS01Solver.Present (s : DNS01Solver) (env : Env) (ch : ChallengeRequest) :
    SolverRun :=
  let entry := logEntry "Presenting DNS01 challenge"
    [("fqdn", ch.resolvedFQDN), ("key", ch.key), ("namespace", ch.resourceNamespace)]
  match parseConfig ch.config with
  | Except.error e =>
      { logs := [entry], secretLookups := 0, exchanges := []
        result := Except.error ("failed to parse config: " ++ e) }
  | Except.ok config =>
      match s.getTSIGSecret env ch.resourceNamespace config.tsigSecretName with
      | (Except.error e, n) =>
          { logs := [entry], secretLookups := n, exchanges := []
            result := Except.error ("failed to get TSIG secret: " ++ e) }
      | (Except.ok tsigSecret, n) =>
          let dnsManager := NewMultiServerDNS config.servers config.zone
            config.tsigKeyName config.tsigAlgorithm tsigSecret
          let run := dnsManager.AddTXTRecord env ch.resolvedFQDN ch.key config.ttl
          match run.result with
          | Except.error aggErr =>
              { logs := entry :: run.logs, secretLookups := n
                exchanges := (run.clientRuns.map (fun p => p.2.calls)).flatten
                result := Except.error ("failed to add TXT record: " ++ aggErr.render) }
          | Except.ok _ =>
              { logs := entry :: run.logs
                  ++ [logEntry "DNS01 challenge presented successfully"
                    [("fqdn", ch.resolvedFQDN),
                     ("servers", toString config.servers.length)]]
                secretLookups := n
                exchanges := (run.clientRuns.map (fun p => p.2.calls)).flatten
                result := Except.ok () }

/-- `DNS01Solver.CleanUp`: identical pipeline with `DeleteTXTRecord`. -/
def DNS01Solver.CleanUp (s : DNS01Solver) (env : Env) (ch : ChallengeRequest) :
    SolverRun :=
  let entry := logEntry "Cleaning up DNS01 challenge"
    [("fqdn", ch.resolvedFQDN), ("key", ch.key), ("namespace", ch.resourceNamespace)]
  match parseConfig ch.config with
  | Except.error e =>
      { logs := [entry], secretLookups := 0, exchanges := []
        result := Except.error ("failed to parse config: " ++ e) }
  | Except.ok config =>
      match s.getTSIGSecret env ch.resourceNamespace config.tsigSecretName with
      | (Except.error e, n) =>
          { logs := [entry], secretLookups := n, exchanges := []
            result := Except.error ("failed to get TSIG secret: " ++ e) }
      | (Except.ok tsigSecret, n) =>
          let dnsManager := NewMultiServerDNS config.servers config.zone
            config.tsigKeyName config.tsigAlgorithm tsigSecret
          let run := dnsManager.DeleteTXTRecord env ch.resolvedFQDN
          match run.result with
          | Except.error errs =>
              { logs := entry :: run.logs, secretLookups := n
                exchanges := (run.clientRuns.map (fun p => p.2.calls)).flatten
                result := Except.error ("failed to delete TXT record: "
                  ++ renderDeleteError errs) }
          | Except.ok _ =>
              { logs := entry :: run.logs
                  ++ [logEntry "DNS01 challenge cleaned up successfully"
                    [("fqdn", ch.resolvedFQDN),
                     ("servers", toString config.servers.length)]]
                secretLookups := n
                exchanges := (run.clientRuns.map (fun p => p.2.calls)).flatten
                result := Except.ok () }

/-! ## Server-side semantics of an UPDATE section (RFC 2136 §2.5)

Modelled from RFC 2136 §2.5.1 ("add to an RRset", class `IN`) and §2.5.2
("delete an RRset": class `ANY`, TTL 0, empty rdata), which the spec cites
as the meaning of the messages the client builds.  A zone's TXT content is
a list of records `(owner, rtype, ttl, values)`. -/

structure ZoneRecord where
  owner : String
  rtype : Nat
  ttl : Nat
  values : List String
  deriving DecidableEq, Repr

/-- Apply one Update-section record to the zone content. -/
def applyUpdateRR (zoneData : List ZoneRecord) (rr : UpdateRR) : List ZoneRecord :=
  if rr.rrclass = classANY ∧ rr.rdata = [] then
    zoneData.filter (fun rec => !(rec.owner == rr.name && rec.rtype == rr.rrtype))
  else if rr.rrclass = classINET then
    zoneData ++ [{ owner := rr.name, rtype := rr.rrtype, ttl := rr.ttl,
                   values := rr.rdata }]
  else zoneData

/-- Apply a whole Update section, in order. -/
def applyUpdateSection (zoneData : List ZoneRecord) (rrs : List UpdateRR) :
    List ZoneRecord :=
  rrs.foldl applyUpdateRR zoneData

/-- The spec's zone-containment predicate: after normalization, `fqdn` has
`zone` as a suffix. -/
def inZone (zone fqdn : String) : Bool :=
  (dnsFqdn zone).data.isSuffixOf (dnsFqdn fqdn).data

/-! ## Concrete inputs used by witnesses and counterexamples -/

/-- A network in which exactly the listed servers fail with REFUSED and
every other server answers NOERROR; the secret store holds a secret. -/
def refuseEnv (bad : List String) : Env :=
  { now := 0
    net := fun srv =>
      if bad.contains srv then Except.ok { rcode := 5, truncated := false }
      else Except.ok { rcode := 0, truncated := false }
    secretResult := Except.ok "dGhlLXNlY3JldA==" }

/-- Every server answers NOERROR. -/
def allOkEnv : Env := refuseEnv []

/-- Every server answers NOERROR but with the TC (truncated) bit set. -/
def truncatedOkEnv : Env :=
  { now := 0
    net := fun _ => Except.ok { rcode := 0, truncated := true }
    secretResult := Except.ok "dGhlLXNlY3JldA==" }

/-- A single-server client bound to zone `example.com`. -/
def demoClient : RFC2136Client :=
  NewRFC2136Client "10.0.0.1" "example.com" "tsig-key" "hmac-sha256" "s3cr3t"

/-- A complete configuration document relying on the three defaults. -/
def demoRaw : RawConfig :=
  { servers := some ["10.0.0.1"]
    zone := some "example.com"
    tsigKeyName := some "tsig-key"
    tsigAlgorithm := none
    tsigSecretName := some "tsig-secret"
    tsigSecretKey := none
    ttl := none }

/-- The same document with an explicit negative TTL. -/
def demoRawNegTTL : RawConfig := { demoRaw with ttl := some (-1) }

/-- A document missing its `servers` list. -/
def demoRawNoServers : RawConfig := { demoRaw with servers := none }

/-- A challenge request carrying `demoRaw` and the given key. -/
def demoCh (key : String) : ChallengeRequest :=
  { resolvedFQDN := "_acme-challenge.app.example.com."
    key := key
    resourceNamespace := "default"
    config := some demoRaw }

/-- A challenge request whose configuration is missing `servers`. -/
def demoChBadConfig : ChallengeRequest :=
  { resolvedFQDN := "_acme-challenge.app.example.com."
    key := "tokenA"
    resourceNamespace := "default"
    config := some demoRawNoServers }

/-- An initialized solver. -/
def demoSolver : DNS01Solver := { initialized := true }

/-! ## General list lemmas -/

theorem filter_length_over_map {α β : Type} (f : α → β) (p : β → Bool) (l : List α) :
    ((l.map f).filter p).length = (l.filter (fun a => p (f a))).length := by
  induction l with
  | nil => rfl
  | cons a l ih =>
      by_cases h : p (f a)
      · simp [List.filter_cons, h, ih]
      · simp [List.filter_cons, h, ih]

theorem filterMap_over_map {α β γ : Type} (f : α → β) (g : β → Option γ) (l : List α) :
    (l.map f).filterMap g = l.filterMap (fun a => g (f a)) := by
  induction l with
  | nil => rfl
  | cons a l ih => cases hg : g (f a) <;> simp [List.filterMap_cons, hg, ih]

theorem filter_congr_fn {α : Type} (p q : α → Bool) (l : List α) (h : ∀ a, p a = q a) :
    l.filter p = l.filter q := by
  induction l with
  | nil => rfl
  | cons a l ih => simp [List.filter_cons, h a, ih]

theorem filterMap_congr_fn {α β : Type} (g₁ g₂ : α → Option β) (l : List α)
    (h : ∀ a, g₁ a = g₂ a) : l.filterMap g₁ = l.filterMap g₂ := by
  induction l with
  | nil => rfl
  | cons a l ih => simp [List.filterMap_cons, h a, ih]

theorem map_congr_fn {α β : Type} (f₁ f₂ : α → β) (l : List α)
    (h : ∀ a, f₁ a = f₂ a) : l.map f₁ = l.map f₂ := by
  induction l with
  | nil => rfl
  | cons a l ih => simp [h a, ih]

theorem sum_map_one {α : Type} (g : α → Nat) (l : List α) (h : ∀ a, g a = 1) :
    (l.map g).sum = l.length := by
  induction l with
  | nil => rfl
  | cons a l ih => simp [h a, ih, Nat.add_comm]

/-! ## Unfolding lemmas for the embedded operations -/

@[simp] theorem exceptOk_ok {ε α : Type} (a : α) :
    exceptOk (Except.ok a : Except ε α) = true := rfl

@[simp] theorem exceptOk_error {ε α : Type} (e : ε) :
    exceptOk (Except.error e : Except ε α) = false := rfl

theorem newMulti_minSuccess (servers : List String) (zone tsigKey tsigAlg tsigSec : String) :
    (NewMultiServerDNS servers zone tsigKey tsigAlg tsigSec).minSuccess
      = servers.length / 2 + 1 := by
  have h : ¬ (servers.length / 2 + 1 < 1) := by omega
  simp [NewMultiServerDNS, h]

theorem newMulti_servers (servers : List String) (zone tsigKey tsigAlg tsigSec : String) :
    (NewMultiServerDNS servers zone tsigKey tsigAlg tsigSec).servers = servers := rfl

theorem newMulti_zone (servers : List String) (zone tsigKey tsigAlg tsigSec : String) :
    (NewMultiServerDNS servers zone tsigKey tsigAlg tsigSec).zone = zone := rfl

theorem newMulti_tsigKey (servers : List String) (zone tsigKey tsigAlg tsigSec : String) :
    (NewMultiServerDNS servers zone tsigKey tsigAlg tsigSec).tsigKey = tsigKey := rfl

theorem newMulti_tsigAlg (servers : List String) (zone tsigKey tsigAlg tsigSec : String) :
    (NewMultiServerDNS servers zone tsigKey tsigAlg tsigSec).tsigAlg = tsigAlg := rfl

theorem newMulti_tsigSec (servers : List String) (zone tsigKey tsigAlg tsigSec : String) :
    (NewMultiServerDNS servers zone tsigKey tsigAlg tsigSec).tsigSec = tsigSec := rfl

theorem multiAdd_successCount (m : MultiServerDNS) (env : Env) (fqdn value : String)
    (ttl : Int) :
    (m.AddTXTRecord env fqdn value ttl).successCount
      = (m.servers.filter (fun srv =>
          exceptOk ((NewRFC2136Client srv m.zone m.tsigKey m.tsigAlg m.tsigSec).AddTXTRecord
            env fqdn value ttl).result)).length := by
  unfold MultiServerDNS.AddTXTRecord
  exact filter_length_over_map _ _ _

theorem multiAdd_result (m : MultiServerDNS) (env : Env) (fqdn value : String)
    (ttl : Int) :
    (m.AddTXTRecord env fqdn value ttl).result
      = if (m.AddTXTRecord env fqdn value ttl).successCount < m.minSuccess
        then Except.error
          { successCount := (m.AddTXTRecord env fqdn value ttl).successCount
            totalServers := m.servers.length
            minRequired := m.minSuccess
            errors := (m.AddTXTRecord env fqdn value ttl).errors }
        else Except.ok () := by
  unfold MultiServerDNS.AddTXTRecord
  rfl

theorem multiDelete_successCount (m : MultiServerDNS) (env : Env) (fqdn : String) :
    (m.DeleteTXTRecord env fqdn).successCount
      = (m.servers.filter (fun srv =>
          exceptOk ((NewRFC2136Client srv m.zone m.tsigKey m.tsigAlg m.tsigSec).DeleteTXTRecord
            env fqdn).result)).length := by
  unfold MultiServerDNS.DeleteTXTRecord
  exact filter_length_over_map _ _ _

theorem multiDelete_result (m : MultiServerDNS) (env : Env) (fqdn : String) :
    (m.DeleteTXTRecord env fqdn).result
      = if (m.DeleteTXTRecord env fqdn).successCount = 0
        then Except.error (m.DeleteTXTRecord env fqdn).errors
        else Except.ok () := by
  unfold MultiServerDNS.DeleteTXTRecord
  rfl

theorem map_fst_pair {α β : Type} (f : α → β) (l : List α) :
    (l.map (fun a => (a, f a))).map Prod.fst = l := by
  induction l with
  | nil => rfl
  | cons a l ih => simp [ih]

/-- `RFC2136Client.AddTXTRecord` performs exactly one exchange: over UDP,
to `server:53`, carrying the built add message and the client's TSIG
secret — whatever the network answers. -/
theorem clientAdd_calls (c : RFC2136Client) (env : Env) (fqdn value : String)
    (ttl : Int) :
    (c.AddTXTRecord env fqdn value ttl).calls
      = [{ transport := Transport.udp, addr := c.server ++ ":53",
           msg := c.buildAddMsg env.now fqdn value ttl, tsigSecret := c.tsigSec }] := by
  unfold RFC2136Client.AddTXTRecord
  cases h : env.net c.server with
  | error e => simp [h]
  | ok reply =>
      simp only [h]
      split <;> rfl

/-- `RFC2136Client.DeleteTXTRecord` performs exactly one exchange: over
UDP, to `server:53`, carrying the built delete message. -/
theorem clientDelete_calls (c : RFC2136Client) (env : Env) (fqdn : String) :
    (c.DeleteTXTRecord env fqdn).calls
      = [{ transport := Transport.udp, addr := c.server ++ ":53",
           msg := c.buildDeleteMsg env.now fqdn, tsigSecret := c.tsigSec }] := by
  unfold RFC2136Client.DeleteTXTRecord
  cases h : env.net c.server with
  | error e => simp [h]
  | ok reply =>
      simp only [h]
      split <;> rfl

theorem multiAdd_clientRuns (m : MultiServerDNS) (env : Env) (fqdn value : String)
    (ttl : Int) :
    (m.AddTXTRecord env fqdn value ttl).clientRuns
      = m.servers.map (fun srv =>
          (srv, (NewRFC2136Client srv m.zone m.tsigKey m.tsigAlg m.tsigSec).AddTXTRecord
            env fqdn value ttl)) := by
  unfold MultiServerDNS.AddTXTRecord
  rfl

theorem multiAdd_errors (m : MultiServerDNS) (env : Env) (fqdn value : String)
    (ttl : Int) :
    (m.AddTXTRecord env fqdn value ttl).errors
      = m.servers.filterMap (fun srv =>
          match ((NewRFC2136Client srv m.zone m.tsigKey m.tsigAlg m.tsigSec).AddTXTRecord
              env fqdn value ttl).result with
          | Except.error e => some ("server " ++ srv ++ ": " ++ e)
          | Except.ok _ => none) := by
  unfold MultiServerDNS.AddTXTRecord
  exact filterMap_over_map _ _ _

theorem multiDelete_clientRuns (m : MultiServerDNS) (env : Env) (fqdn : String) :
    (m.DeleteTXTRecord env fqdn).clientRuns
      = m.servers.map (fun srv =>
          (srv, (NewRFC2136Client srv m.zone m.tsigKey m.tsigAlg m.tsigSec).DeleteTXTRecord
            env fqdn)) := by
  unfold MultiServerDNS.DeleteTXTRecord
  rfl

theorem multiDelete_errors (m : MultiServerDNS) (env : Env) (fqdn : String) :
    (m.DeleteTXTRecord env fqdn).errors
      = m.servers.filterMap (fun srv =>
          match ((NewRFC2136Client srv m.zone m.tsigKey m.tsigAlg m.tsigSec).DeleteTXTRecord
              env fqdn).result with
          | Except.error e => some ("server " ++ srv ++ ": " ++ e)
          | Except.ok _ => none) := by
  unfold MultiServerDNS.DeleteTXTRecord
  exact filterMap_over_map _ _ _

/-! ## Claim theorems -/

/-- **C1**: for every configured server list of length `N ≥ 1` and every
assignment of per-server outcomes, the coordinator's `AddTXTRecord`
succeeds iff the number of servers whose single-server add succeeds is at
least `⌊N/2⌋ + 1`, the threshold computed once at construction
(`minSuccess`); when fewer succeed it returns the aggregate quorum
error carrying that threshold. -/
theorem add_quorum_iff_majority
    (servers : List String) (zone tsigKey tsigAlg tsigSec : String)
    (env : Env) (fqdn value : String) (ttl : Int)
    (hN : 1 ≤ servers.length) :
    (NewMultiServerDNS servers zone tsigKey tsigAlg tsigSec).minSuccess
        = servers.length / 2 + 1
    ∧ (exceptOk ((NewMultiServerDNS servers zone tsigKey tsigAlg tsigSec).AddTXTRecord
          env fqdn value ttl).result = true
        ↔ servers.length / 2 + 1
            ≤ (servers.filter (fun srv =>
                exceptOk ((NewRFC2136Client srv zone tsigKey tsigAlg tsigSec).AddTXTRecord
                  env fqdn value ttl).result)).length)
    ∧ ((servers.filter (fun srv =>
          exceptOk ((NewRFC2136Client srv zone tsigKey tsigAlg tsigSec).AddTXTRecord
            env fqdn value ttl).result)).length < servers.length / 2 + 1 →
        ∃ aggErr, ((NewMultiServerDNS servers zone tsigKey tsigAlg tsigSec).AddTXTRecord
            env fqdn value ttl).result = Except.error aggErr
          ∧ aggErr.minRequired = servers.length / 2 + 1) := by
  have hmin := newMulti_minSuccess servers zone tsigKey tsigAlg tsigSec
  have hcount := multiAdd_successCount
    (NewMultiServerDNS servers zone tsigKey tsigAlg tsigSec) env fqdn value ttl
  have hres := multiAdd_result
    (NewMultiServerDNS servers zone tsigKey tsigAlg tsigSec) env fqdn value ttl
  simp only [newMulti_servers, newMulti_zone, newMulti_tsigKey, newMulti_tsigAlg,
    newMulti_tsigSec, hmin] at hcount hres
  rw [hcount] at hres
  refine ⟨hmin, ?_, ?_⟩
  · rw [hres]
    split
    next h =>
      simp only [exceptOk_error, Bool.false_eq_true, false_iff]
      omega
    next h =>
      simp only [exceptOk_ok, true_iff]
      omega
  · intro hlt
    rw [hres, if_pos hlt]
    exact ⟨_, rfl, rfl⟩

/-- Witness for C1 at `servers = ["a", "b", "c", "d"]` with servers `c`
and `d` failing: 2 successes miss the threshold 3, so the aggregate call
fails with the quorum error. -/
theorem add_quorum_iff_majority_witness :
    1 ≤ (["a", "b", "c", "d"] : List String).length
    ∧ ((NewMultiServerDNS ["a", "b", "c", "d"] "example.com" "k" "hmac-sha256" "s").minSuccess
          = 3
        ∧ exceptOk ((NewMultiServerDNS ["a", "b", "c", "d"] "example.com" "k" "hmac-sha256"
            "s").AddTXTRecord (refuseEnv ["c", "d"]) "f.example.com." "v" 60).result = false) := by
  have h := add_quorum_iff_majority ["a", "b", "c", "d"] "example.com" "k" "hmac-sha256" "s"
    (refuseEnv ["c", "d"]) "f.example.com." "v" 60 (by decide)
  refine ⟨by decide, h.1, ?_⟩
  have hiff := h.2.1
  by_contra hne
  have htrue : exceptOk ((NewMultiServerDNS ["a", "b", "c", "d"] "example.com" "k" "hmac-sha256"
      "s").AddTXTRecord (refuseEnv ["c", "d"]) "f.example.com." "v" 60).result = true := by
    cases hb : exceptOk ((NewMultiServerDNS ["a", "b", "c", "d"] "example.com" "k" "hmac-sha256"
        "s").AddTXTRecord (refuseEnv ["c", "d"]) "f.example.com." "v" 60).result
    · exact absurd hb hne
    · rfl
  have := hiff.mp htrue
  revert this
  decide

/-- **C2**: for every configured server list of length `N ≥ 1` and every
assignment of per-server outcomes, the coordinator's `DeleteTXTRecord`
succeeds iff at least one server's single-server delete succeeds; when
zero servers succeed it returns failure. -/
theorem delete_quorum_at_least_one
    (servers : List String) (zone tsigKey tsigAlg tsigSec : String)
    (env : Env) (fqdn : String)
    (hN : 1 ≤ servers.length) :
    (exceptOk ((NewMultiServerDNS servers zone tsigKey tsigAlg tsigSec).DeleteTXTRecord
          env fqdn).result = true
        ↔ 1 ≤ (servers.filter (fun srv =>
            exceptOk ((NewRFC2136Client srv zone tsigKey tsigAlg tsigSec).DeleteTXTRecord
              env fqdn).result)).length)
    ∧ ((servers.filter (fun srv =>
          exceptOk ((NewRFC2136Client srv zone tsigKey tsigAlg tsigSec).DeleteTXTRecord
            env fqdn).result)).length = 0 →
        ∃ errs, ((NewMultiServerDNS servers zone tsigKey tsigAlg tsigSec).DeleteTXTRecord
            env fqdn).result = Except.error errs) := by
  have hcount := multiDelete_successCount
    (NewMultiServerDNS servers zone tsigKey tsigAlg tsigSec) env fqdn
  have hres := multiDelete_result
    (NewMultiServerDNS servers zone tsigKey tsigAlg tsigSec) env fqdn
  simp only [newMulti_servers, newMulti_zone, newMulti_tsigKey, newMulti_tsigAlg,
    newMulti_tsigSec] at hcount hres
  rw [hcount] at hres
  constructor
  · rw [hres]
    split
    next h =>
      simp only [exceptOk_error, Bool.false_eq_true, false_iff]
      omega
    next h =>
      simp only [exceptOk_ok, true_iff]
      omega
  · intro hzero
    rw [hres, if_pos hzero]
    exact ⟨_, rfl⟩

/-- Witness for C2 at three servers with `a` and `b` failing: one success
suffices for the delete to succeed, and with all three failing the delete
fails. -/
theorem delete_quorum_at_least_one_witness :
    1 ≤ (["a", "b", "c"] : List String).length
    ∧ exceptOk ((NewMultiServerDNS ["a", "b", "c"] "example.com" "k" "hmac-sha256"
        "s").DeleteTXTRecord (refuseEnv ["a", "b"]) "f.example.com.").result = true
    ∧ exceptOk ((NewMultiServerDNS ["a", "b", "c"] "example.com" "k" "hmac-sha256"
        "s").DeleteTXTRecord (refuseEnv ["a", "b", "c"]) "f.example.com.").result = false := by
  have h₁ := delete_quorum_at_least_one ["a", "b", "c"] "example.com" "k" "hmac-sha256" "s"
    (refuseEnv ["a", "b"]) "f.example.com." (by decide)
  refine ⟨by decide, h₁.1.mpr (by decide), ?_⟩
  have h₂ := delete_quorum_at_least_one ["a", "b", "c"] "example.com" "k" "hmac-sha256" "s"
    (refuseEnv ["a", "b", "c"]) "f.example.com." (by decide)
  obtain ⟨errs, herrs⟩ := h₂.2 (by decide)
  rw [herrs]
  rfl

/-- **C7**: for every invocation of the coordinator's `AddTXTRecord` or
`DeleteTXTRecord`, exactly one single-server client call (one wire
exchange) is made per configured server — no early exit — and whenever
the aggregate result is failure, the returned error enumerates every
failing server together with its error cause. -/
theorem all_servers_attempted_errors_enumerated
    (servers : List String) (zone tsigKey tsigAlg tsigSec : String)
    (env : Env) (fqdn value : String) (ttl : Int) :
    ((NewMultiServerDNS servers zone tsigKey tsigAlg tsigSec).AddTXTRecord
        env fqdn value ttl).clientRuns.map Prod.fst = servers
    ∧ ((NewMultiServerDNS servers zone tsigKey tsigAlg tsigSec).AddTXTRecord
        env fqdn value ttl).exchangeCount = servers.length
    ∧ (∀ aggErr, ((NewMultiServerDNS servers zone tsigKey tsigAlg tsigSec).AddTXTRecord
          env fqdn value ttl).result = Except.error aggErr →
        aggErr.errors = servers.filterMap (fun srv =>
          match ((NewRFC2136Client srv zone tsigKey tsigAlg tsigSec).AddTXTRecord
              env fqdn value ttl).result with
          | Except.error e => some ("server " ++ srv ++ ": " ++ e)
          | Except.ok _ => none))
    ∧ ((NewMultiServerDNS servers zone tsigKey tsigAlg tsigSec).DeleteTXTRecord
        env fqdn).clientRuns.map Prod.fst = servers
    ∧ ((NewMultiServerDNS servers zone tsigKey tsigAlg tsigSec).DeleteTXTRecord
        env fqdn).exchangeCount = servers.length
    ∧ (∀ errs, ((NewMultiServerDNS servers zone tsigKey tsigAlg tsigSec).DeleteTXTRecord
          env fqdn).result = Except.error errs →
        errs = servers.filterMap (fun srv =>
          match ((NewRFC2136Client srv zone tsigKey tsigAlg tsigSec).DeleteTXTRecord
              env fqdn).result with
          | Except.error e => some ("server " ++ srv ++ ": " ++ e)
          | Except.ok _ => none)) := by
  have hruns := multiAdd_clientRuns
    (NewMultiServerDNS servers zone tsigKey tsigAlg tsigSec) env fqdn value ttl
  have hrunsD := multiDelete_clientRuns
    (NewMultiServerDNS servers zone tsigKey tsigAlg tsigSec) env fqdn
  simp only [newMulti_servers, newMulti_zone, newMulti_tsigKey, newMulti_tsigAlg,
    newMulti_tsigSec] at hruns hrunsD
  refine ⟨?_, ?_, ?_, ?_, ?_, ?_⟩
  · rw [hruns]
    exact map_fst_pair _ _
  · unfold MultiRun.exchangeCount
    rw [hruns, List.map_map]
    refine sum_map_one _ _ ?_
    intro srv
    show ((NewRFC2136Client srv zone tsigKey tsigAlg tsigSec).AddTXTRecord
      env fqdn value ttl).calls.length = 1
    rw [clientAdd_calls]
    rfl
  · intro aggErr h
    have hres := multiAdd_result
      (NewMultiServerDNS servers zone tsigKey tsigAlg tsigSec) env fqdn value ttl
    have herr := multiAdd_errors
      (NewMultiServerDNS servers zone tsigKey tsigAlg tsigSec) env fqdn value ttl
    simp only [newMulti_servers, newMulti_zone, newMulti_tsigKey, newMulti_tsigAlg,
      newMulti_tsigSec] at herr
    rw [hres] at h
    split at h
    · cases h
      exact herr
    · cases h
  · rw [hrunsD]
    exact map_fst_pair _ _
  · unfold MultiRun.exchangeCount
    rw [hrunsD, List.map_map]
    refine sum_map_one _ _ ?_
    intro srv
    show ((NewRFC2136Client srv zone tsigKey tsigAlg tsigSec).DeleteTXTRecord
      env fqdn).calls.length = 1
    rw [clientDelete_calls]
    rfl
  · intro errs h
    have hres := multiDelete_result
      (NewMultiServerDNS servers zone tsigKey tsigAlg tsigSec) env fqdn
    have herr := multiDelete_errors
      (NewMultiServerDNS servers zone tsigKey tsigAlg tsigSec) env fqdn
    simp only [newMulti_servers, newMulti_zone, newMulti_tsigKey, newMulti_tsigAlg,
      newMulti_tsigSec] at herr
    rw [hres] at h
    split at h
    · cases h
      exact herr
    · cases h

/-- Witness for C7: four servers where `c` and `d` are REFUSED; every
server is attempted (four exchanges) and the quorum error names exactly
the two failing servers with their causes. -/
theorem all_servers_attempted_errors_enumerated_witness :
    ((NewMultiServerDNS ["a", "b", "c", "d"] "example.com" "k" "hmac-sha256"
        "s").AddTXTRecord (refuseEnv ["c", "d"]) "f.example.com." "v" 60).result
      = Except.error
          { successCount := 2, totalServers := 4, minRequired := 3
            errors := ["server c: DNS update failed: REFUSED (rcode: 5)",
                       "server d: DNS update failed: REFUSED (rcode: 5)"] }
    ∧ (["server c: DNS update failed: REFUSED (rcode: 5)",
        "server d: DNS update failed: REFUSED (rcode: 5)"] : List String)
      = (["a", "b", "c", "d"] : List String).filterMap (fun srv =>
          match ((NewRFC2136Client srv "example.com" "k" "hmac-sha256" "s").AddTXTRecord
              (refuseEnv ["c", "d"]) "f.example.com." "v" 60).result with
          | Except.error e => some ("server " ++ srv ++ ": " ++ e)
          | Except.ok _ => none) := by
  have h := all_servers_attempted_errors_enumerated ["a", "b", "c", "d"] "example.com" "k"
    "hmac-sha256" "s" (refuseEnv ["c", "d"]) "f.example.com." "v" 60
  exact ⟨by rfl, h.2.2.1 _ (by rfl)⟩

/-- **C4 counterexample**: the claim says a truncated (TC-bit) response
triggers a TCP retry to the same endpoint before the outcome is decided.
In the code, a truncated NOERROR reply yields exactly one exchange — over
UDP — and the call is immediately decided as success: no TCP exchange is
ever issued. -/
theorem no_tcp_retry_counterexample :
    truncatedOkEnv.net "10.0.0.1" = Except.ok { rcode := 0, truncated := true }
    ∧ (demoClient.AddTXTRecord truncatedOkEnv "_acme-challenge.app.example.com."
        "tokenA" 60).calls.map ExchangeCall.transport = [Transport.udp]
    ∧ (demoClient.AddTXTRecord truncatedOkEnv "_acme-challenge.app.example.com."
        "tokenA" 60).calls.length = 1
    ∧ (demoClient.AddTXTRecord truncatedOkEnv "_acme-challenge.app.example.com."
        "tokenA" 60).result = Except.ok () := by
  exact ⟨rfl, rfl, rfl, rfl⟩

/-- **C4 amended**: every single-server call performs exactly one wire
exchange, over UDP to `server:53`, and never retries over TCP; the TC
(truncated) bit of the response is ignored entirely — the run is
identical whatever the bit's value, the outcome being decided from the
transport error or the RCODE alone. -/
theorem single_udp_exchange_truncation_ignored
    (c : RFC2136Client) (env : Env) (fqdn value : String) (ttl : Int)
    (rcode : Nat) (t₁ t₂ : Bool) :
    (c.AddTXTRecord env fqdn value ttl).calls.map ExchangeCall.transport = [Transport.udp]
    ∧ (c.AddTXTRecord env fqdn value ttl).calls.map ExchangeCall.addr = [c.server ++ ":53"]
    ∧ (c.DeleteTXTRecord env fqdn).calls.map ExchangeCall.transport = [Transport.udp]
    ∧ (c.DeleteTXTRecord env fqdn).calls.map ExchangeCall.addr = [c.server ++ ":53"]
    ∧ c.AddTXTRecord
        { env with net := fun _ => Except.ok { rcode := rcode, truncated := t₁ } }
        fqdn value ttl
      = c.AddTXTRecord
        { env with net := fun _ => Except.ok { rcode := rcode, truncated := t₂ } }
        fqdn value ttl
    ∧ c.DeleteTXTRecord
        { env with net := fun _ => Except.ok { rcode := rcode, truncated := t₁ } } fqdn
      = c.DeleteTXTRecord
        { env with net := fun _ => Except.ok { rcode := rcode, truncated := t₂ } } fqdn := by
  refine ⟨?_, ?_, ?_, ?_, ?_, ?_⟩
  · rw [clientAdd_calls]
    rfl
  · rw [clientAdd_calls]
    rfl
  · rw [clientDelete_calls]
    rfl
  · rw [clientDelete_calls]
    rfl
  · rfl
  · rfl

/-- **C8**: for every fqdn, the single-server delete's UPDATE message has
an Update section of exactly one record
`{name = Fqdn(fqdn), type TXT, class ANY, ttl 0, empty rdata}` — "delete
an RRset" per RFC 2136 §2.5.2 — whose server-side effect removes every
TXT record at that name irrespective of the stored values while leaving
all other records untouched.  (`DeleteTXTRecord` takes no value
argument.) -/
theorem delete_sends_rrset_removal (c : RFC2136Client) (env : Env) (fqdn : String) :
    (c.DeleteTXTRecord env fqdn).calls.map (fun call => call.msg.updateSection)
      = [[{ name := dnsFqdn fqdn, rrtype := typeTXT, rrclass := classANY,
            ttl := 0, rdata := [] }]]
    ∧ ∀ zoneData : List ZoneRecord,
        applyUpdateSection zoneData (c.buildDeleteMsg env.now fqdn).updateSection
          = zoneData.filter (fun rec =>
              !(rec.owner == dnsFqdn fqdn && rec.rtype == typeTXT)) := by
  constructor
  · rw [clientDelete_calls]
    rfl
  · intro zoneData
    simp [applyUpdateSection, RFC2136Client.buildDeleteMsg, msgRemoveRRset, msgSetTsig,
      setUpdate, applyUpdateRR, classANY, classINET]

/-- **C9 counterexample**: the claim says a request whose fqdn lies
outside the configured zone is never sent to any server.  The fqdn
`x.other.org.` is outside `example.com`, yet the client dispatches the
update to the server anyway (one exchange to `10.0.0.1:53`). -/
theorem zone_containment_counterexample :
    inZone demoClient.zone "x.other.org." = false
    ∧ (demoClient.AddTXTRecord allOkEnv "x.other.org." "tokenA" 60).calls.length = 1
    ∧ (demoClient.AddTXTRecord allOkEnv "x.other.org." "tokenA" 60).calls.map
        ExchangeCall.addr = ["10.0.0.1:53"] := by
  exact ⟨by decide, rfl, rfl⟩

/-- **C9 amended**: no layer validates zone containment.  For every fqdn,
inside or outside the configured zone, the single-server operations
dispatch exactly one update whose Zone section names the configured zone
and whose Update section names `Fqdn(fqdn)`; zone containment is only
enforced by the remote server (e.g. a NOTZONE rejection). -/
theorem no_zone_containment_check (c : RFC2136Client) (env : Env)
    (fqdn value : String) (ttl : Int) :
    (c.AddTXTRecord env fqdn value ttl).calls.length = 1
    ∧ (c.AddTXTRecord env fqdn value ttl).calls.map (fun call => call.msg.zoneSection)
      = [[{ name := dnsFqdn c.zone, qtype := typeSOA, qclass := classINET }]]
    ∧ (c.AddTXTRecord env fqdn value ttl).calls.map
        (fun call => call.msg.updateSection.map UpdateRR.name) = [[dnsFqdn fqdn]]
    ∧ (c.DeleteTXTRecord env fqdn).calls.length = 1
    ∧ (c.DeleteTXTRecord env fqdn).calls.map (fun call => call.msg.zoneSection)
      = [[{ name := dnsFqdn c.zone, qtype := typeSOA, qclass := classINET }]]
    ∧ (c.DeleteTXTRecord env fqdn).calls.map
        (fun call => call.msg.updateSection.map UpdateRR.name) = [[dnsFqdn fqdn]] := by
  refine ⟨?_, ?_, ?_, ?_, ?_, ?_⟩ <;>
    first
      | (rw [clientAdd_calls]; rfl)
      | (rw [clientDelete_calls]; rfl)

/-- **C5**: `parseConfig` rejects a missing/empty document, and for every
well-formed document it returns a descriptive error iff the servers list
is empty or absent, or `zone`, `tsigKeyName` or `tsigSecretName` is
absent; otherwise it succeeds, and an unspecified `tsigAlgorithm` is
`"hmac-sha256"`, an unspecified `tsigSecretKey` is `"secret"`, and an
unspecified `ttl` is 60.  (Go's JSON decoding leaves the zero value `""`
for an absent string field, so an explicitly empty string and an absent
field are indistinguishable, both modelled by `getD` yielding `""`.) -/
theorem parseConfig_validation_and_defaults (raw : RawConfig) :
    parseConfig none = Except.error "config is empty"
    ∧ ((∃ e, parseConfig (some raw) = Except.error e)
        ↔ (raw.servers.getD [] = [] ∨ raw.zone.getD "" = ""
           ∨ raw.tsigKeyName.getD "" = "" ∨ raw.tsigSecretName.getD "" = ""))
    ∧ (∀ cfg, parseConfig (some raw) = Except.ok cfg →
        cfg.servers = raw.servers.getD []
        ∧ cfg.zone = raw.zone.getD ""
        ∧ cfg.tsigKeyName = raw.tsigKeyName.getD ""
        ∧ cfg.tsigSecretName = raw.tsigSecretName.getD ""
        ∧ (raw.tsigAlgorithm = none → cfg.tsigAlgorithm = "hmac-sha256")
        ∧ (raw.tsigSecretKey = none → cfg.tsigSecretKey = "secret")
        ∧ (raw.ttl = none → cfg.ttl = 60)) := by
  refine ⟨rfl, ⟨?_, ?_⟩, ?_⟩
  · intro he
    by_contra hall
    push_neg at hall
    obtain ⟨h1, h2, h3, h4⟩ := hall
    have hlen : ¬ ((raw.servers.getD []).length = 0) := by
      simpa [List.length_eq_zero] using h1
    obtain ⟨e, he⟩ := he
    simp [parseConfig, hlen, h2, h3, h4] at he
  · intro hd
    by_cases h1 : raw.servers.getD [] = []
    · exact ⟨"servers list is required", by simp [parseConfig, h1]⟩
    · have hlen : ¬ ((raw.servers.getD []).length = 0) := by
        simpa [List.length_eq_zero] using h1
      by_cases h2 : raw.zone.getD "" = ""
      · exact ⟨"zone is required", by simp [parseConfig, hlen, h2]⟩
      · by_cases h3 : raw.tsigKeyName.getD "" = ""
        · exact ⟨"tsigKeyName is required", by simp [parseConfig, hlen, h2, h3]⟩
        · by_cases h4 : raw.tsigSecretName.getD "" = ""
          · exact ⟨"tsigSecretName is required", by simp [parseConfig, hlen, h2, h3, h4]⟩
          · rcases hd with h | h | h | h <;> contradiction
  · intro cfg hcfg
    simp only [parseConfig] at hcfg
    split_ifs at hcfg
    all_goals cases hcfg
    refine ⟨rfl, rfl, rfl, rfl, ?_, ?_, ?_⟩
    · intro h
      simp [h]
    · intro h
      simp [h]
    · intro h
      simp [h]

/-- Witness for C5: the demo document (servers/zone/keyName/secretName
present, the three optional fields absent) parses successfully with the
three defaults applied, and the document missing `servers` is rejected. -/
theorem parseConfig_validation_and_defaults_witness :
    (∃ cfg, parseConfig (some demoRaw) = Except.ok cfg
        ∧ cfg.tsigAlgorithm = "hmac-sha256" ∧ cfg.tsigSecretKey = "secret"
        ∧ cfg.ttl = 60)
    ∧ (∃ e, parseConfig (some demoRawNoServers) = Except.error e) := by
  have h := (parseConfig_validation_and_defaults demoRaw).2.2
    { servers := ["10.0.0.1"], zone := "example.com",
      tsigKeyName := "tsig-key", tsigAlgorithm := "hmac-sha256",
      tsigSecretName := "tsig-secret", tsigSecretKey := "secret", ttl := 60 }
    (by rfl)
  have herr := (parseConfig_validation_and_defaults demoRawNoServers).2.1.mpr
    (Or.inl rfl)
  exact ⟨⟨_, by rfl, h.2.2.2.2.1 rfl, h.2.2.2.2.2.1 rfl, h.2.2.2.2.2.2 rfl⟩, herr⟩

/-! ## Noninterference of the TSIG secret in observable output

The secret flows into the TSIG key material handed to the transport
(`ExchangeCall.tsigSecret`) but never into a log event or an error
string.  The following congruence lemmas make that precise. -/

theorem clientAdd_obs_congr (server zone tsigKey tsigAlg : String) (sec₁ sec₂ : String)
    (env₁ env₂ : Env) (hnet : env₁.net = env₂.net)
    (fqdn value : String) (ttl : Int) :
    ((NewRFC2136Client server zone tsigKey tsigAlg sec₁).AddTXTRecord env₁ fqdn value ttl).logs
      = ((NewRFC2136Client server zone tsigKey tsigAlg sec₂).AddTXTRecord env₂ fqdn value ttl).logs
    ∧ ((NewRFC2136Client server zone tsigKey tsigAlg sec₁).AddTXTRecord env₁ fqdn value ttl).result
      = ((NewRFC2136Client server zone tsigKey tsigAlg sec₂).AddTXTRecord env₂ fqdn value ttl).result := by
  unfold RFC2136Client.AddTXTRecord NewRFC2136Client
  rw [hnet]
  cases h : env₂.net server
  · simp [h]
  · simp only [h]
    split
    · exact ⟨rfl, rfl⟩
    · exact ⟨rfl, rfl⟩

theorem clientDelete_obs_congr (server zone tsigKey tsigAlg : String) (sec₁ sec₂ : String)
    (env₁ env₂ : Env) (hnet : env₁.net = env₂.net) (fqdn : String) :
    ((NewRFC2136Client server zone tsigKey tsigAlg sec₁).DeleteTXTRecord env₁ fqdn).logs
      = ((NewRFC2136Client server zone tsigKey tsigAlg sec₂).DeleteTXTRecord env₂ fqdn).logs
    ∧ ((NewRFC2136Client server zone tsigKey tsigAlg sec₁).DeleteTXTRecord env₁ fqdn).result
      = ((NewRFC2136Client server zone tsigKey tsigAlg sec₂).DeleteTXTRecord env₂ fqdn).result := by
  unfold RFC2136Client.DeleteTXTRecord NewRFC2136Client
  rw [hnet]
  cases h : env₂.net server
  · simp [h]
  · simp only [h]
    split
    · exact ⟨rfl, rfl⟩
    · exact ⟨rfl, rfl⟩

theorem serverOutcomeLogs_congr (okMsg failMsg fqdn srv : String) (r₁ r₂ : ClientRun)
    (hl : r₁.logs = r₂.logs) (hr : r₁.result = r₂.result) :
    serverOutcomeLogs okMsg failMsg fqdn srv r₁
      = serverOutcomeLogs okMsg failMsg fqdn srv r₂ := by
  unfold serverOutcomeLogs
  rw [hr, hl]

theorem multiAdd_logs (m : MultiServerDNS) (env : Env) (fqdn value : String) (ttl : Int) :
    (m.AddTXTRecord env fqdn value ttl).logs
      = logEntry "Adding TXT record to multiple servers"
          [("fqdn", fqdn), ("value", value), ("servers", String.intercalate "," m.servers)]
        :: (m.servers.map (fun srv =>
              serverOutcomeLogs "Successfully added TXT record on server"
                "Failed to add TXT record on server" fqdn srv
                ((NewRFC2136Client srv m.zone m.tsigKey m.tsigAlg m.tsigSec).AddTXTRecord
                  env fqdn value ttl))).flatten
          ++ (if (m.AddTXTRecord env fqdn value ttl).successCount < m.minSuccess then
                [logEntry "Insufficient successful updates"
                  [("success_count", toString (m.AddTXTRecord env fqdn value ttl).successCount),
                   ("min_required", toString m.minSuccess),
                   ("total_servers", toString m.servers.length),
                   ("errors", toString (m.AddTXTRecord env fqdn value ttl).errors.length)]]
              else
                (if (m.AddTXTRecord env fqdn value ttl).errors.length > 0 then
                  [logEntry "Some servers failed, but minimum success threshold met"
                    [("success_count", toString (m.AddTXTRecord env fqdn value ttl).successCount),
                     ("error_count", toString (m.AddTXTRecord env fqdn value ttl).errors.length)]]
                 else [])
                ++ [logEntry "TXT record added successfully to multiple servers"
                  [("fqdn", fqdn),
                   ("success_count", toString (m.AddTXTRecord env fqdn value ttl).successCount),
                   ("total_servers", toString m.servers.length)]]) := by
  rfl

theorem multiDelete_logs (m : MultiServerDNS) (env : Env) (fqdn : String) :
    (m.DeleteTXTRecord env fqdn).logs
      = logEntry "Deleting TXT record from multiple servers"
          [("fqdn", fqdn), ("servers", String.intercalate "," m.servers)]
        :: (m.servers.map (fun srv =>
              serverOutcomeLogs "Successfully deleted TXT record on server"
                "Failed to delete TXT record on server" fqdn srv
                ((NewRFC2136Client srv m.zone m.tsigKey m.tsigAlg m.tsigSec).DeleteTXTRecord
                  env fqdn))).flatten
          ++ (if (m.DeleteTXTRecord env fqdn).successCount = 0 then
                [logEntry "Failed to delete TXT record on all servers"
                  [("total_servers", toString m.servers.length),
                   ("errors", toString (m.DeleteTXTRecord env fqdn).errors.length)]]
              else
                (if (m.DeleteTXTRecord env fqdn).errors.length > 0 then
                  [logEntry "Some servers failed during deletion"
                    [("success_count", toString (m.DeleteTXTRecord env fqdn).successCount),
                     ("error_count", toString (m.DeleteTXTRecord env fqdn).errors.length)]]
                 else [])
                ++ [logEntry "TXT record deleted successfully from multiple servers"
                  [("fqdn", fqdn),
                   ("success_count", toString (m.DeleteTXTRecord env fqdn).successCount),
                   ("total_servers", toString m.servers.length)]]) := by
  rfl

theorem multiAdd_obs_congr (servers : List String) (zone tsigKey tsigAlg : String)
    (sec₁ sec₂ : String) (env₁ env₂ : Env) (hnet : env₁.net = env₂.net)
    (fqdn value : String) (ttl : Int) :
    ((NewMultiServerDNS servers zone tsigKey tsigAlg sec₁).AddTXTRecord env₁ fqdn value ttl).logs
      = ((NewMultiServerDNS servers zone tsigKey tsigAlg sec₂).AddTXTRecord env₂ fqdn value ttl).logs
    ∧ ((NewMultiServerDNS servers zone tsigKey tsigAlg sec₁).AddTXTRecord env₁ fqdn value ttl).successCount
      = ((NewMultiServerDNS servers zone tsigKey tsigAlg sec₂).AddTXTRecord env₂ fqdn value ttl).successCount
    ∧ ((NewMultiServerDNS servers zone tsigKey tsigAlg sec₁).AddTXTRecord env₁ fqdn value ttl).errors
      = ((NewMultiServerDNS servers zone tsigKey tsigAlg sec₂).AddTXTRecord env₂ fqdn value ttl).errors
    ∧ ((NewMultiServerDNS servers zone tsigKey tsigAlg sec₁).AddTXTRecord env₁ fqdn value ttl).result
      = ((NewMultiServerDNS servers zone tsigKey tsigAlg sec₂).AddTXTRecord env₂ fqdn value ttl).result := by
  have hobs := fun srv =>
    clientAdd_obs_congr srv zone tsigKey tsigAlg sec₁ sec₂ env₁ env₂ hnet fqdn value ttl
  have hsc : ((NewMultiServerDNS servers zone tsigKey tsigAlg sec₁).AddTXTRecord
        env₁ fqdn value ttl).successCount
      = ((NewMultiServerDNS servers zone tsigKey tsigAlg sec₂).AddTXTRecord
        env₂ fqdn value ttl).successCount := by
    rw [multiAdd_successCount, multiAdd_successCount]
    simp only [newMulti_servers, newMulti_zone, newMulti_tsigKey, newMulti_tsigAlg,
      newMulti_tsigSec]
    congr 1
    exact filter_congr_fn _ _ servers (fun srv => by rw [(hobs srv).2])
  have herrs : ((NewMultiServerDNS servers zone tsigKey tsigAlg sec₁).AddTXTRecord
        env₁ fqdn value ttl).errors
      = ((NewMultiServerDNS servers zone tsigKey tsigAlg sec₂).AddTXTRecord
        env₂ fqdn value ttl).errors := by
    rw [multiAdd_errors, multiAdd_errors]
    simp only [newMulti_servers, newMulti_zone, newMulti_tsigKey, newMulti_tsigAlg,
      newMulti_tsigSec]
    exact filterMap_congr_fn _ _ servers (fun srv => by rw [(hobs srv).2])
  have hres : ((NewMultiServerDNS servers zone tsigKey tsigAlg sec₁).AddTXTRecord
        env₁ fqdn value ttl).result
      = ((NewMultiServerDNS servers zone tsigKey tsigAlg sec₂).AddTXTRecord
        env₂ fqdn value ttl).result := by
    rw [multiAdd_result, multiAdd_result, hsc, herrs]
    simp only [newMulti_servers, newMulti_minSuccess]
  have hlogs : ((NewMultiServerDNS servers zone tsigKey tsigAlg sec₁).AddTXTRecord
        env₁ fqdn value ttl).logs
      = ((NewMultiServerDNS servers zone tsigKey tsigAlg sec₂).AddTXTRecord
        env₂ fqdn value ttl).logs := by
    rw [multiAdd_logs, multiAdd_logs, hsc, herrs]
    simp only [newMulti_servers, newMulti_zone, newMulti_tsigKey, newMulti_tsigAlg,
      newMulti_tsigSec, newMulti_minSuccess]
    rw [map_congr_fn _ _ servers (fun srv =>
      serverOutcomeLogs_congr "Successfully added TXT record on server"
        "Failed to add TXT record on server" fqdn srv _ _ (hobs srv).1 (hobs srv).2)]
  exact ⟨hlogs, hsc, herrs, hres⟩

theorem multiDelete_obs_congr (servers : List String) (zone tsigKey tsigAlg : String)
    (sec₁ sec₂ : String) (env₁ env₂ : Env) (hnet : env₁.net = env₂.net)
    (fqdn : String) :
    ((NewMultiServerDNS servers zone tsigKey tsigAlg sec₁).DeleteTXTRecord env₁ fqdn).logs
      = ((NewMultiServerDNS servers zone tsigKey tsigAlg sec₂).DeleteTXTRecord env₂ fqdn).logs
    ∧ ((NewMultiServerDNS servers zone tsigKey tsigAlg sec₁).DeleteTXTRecord env₁ fqdn).successCount
      = ((NewMultiServerDNS servers zone tsigKey tsigAlg sec₂).DeleteTXTRecord env₂ fqdn).successCount
    ∧ ((NewMultiServerDNS servers zone tsigKey tsigAlg sec₁).DeleteTXTRecord env₁ fqdn).errors
      = ((NewMultiServerDNS servers zone tsigKey tsigAlg sec₂).DeleteTXTRecord env₂ fqdn).errors
    ∧ ((NewMultiServerDNS servers zone tsigKey tsigAlg sec₁).DeleteTXTRecord env₁ fqdn).result
      = ((NewMultiServerDNS servers zone tsigKey tsigAlg sec₂).DeleteTXTRecord env₂ fqdn).result := by
  have hobs := fun srv =>
    clientDelete_obs_congr srv zone tsigKey tsigAlg sec₁ sec₂ env₁ env₂ hnet fqdn
  have hsc : ((NewMultiServerDNS servers zone tsigKey tsigAlg sec₁).DeleteTXTRecord
        env₁ fqdn).successCount
      = ((NewMultiServerDNS servers zone tsigKey tsigAlg sec₂).DeleteTXTRecord
        env₂ fqdn).successCount := by
    rw [multiDelete_successCount, multiDelete_successCount]
    simp only [newMulti_servers, newMulti_zone, newMulti_tsigKey, newMulti_tsigAlg,
      newMulti_tsigSec]
    congr 1
    exact filter_congr_fn _ _ servers (fun srv => by rw [(hobs srv).2])
  have herrs : ((NewMultiServerDNS servers zone tsigKey tsigAlg sec₁).DeleteTXTRecord
        env₁ fqdn).errors
      = ((NewMultiServerDNS servers zone tsigKey tsigAlg sec₂).DeleteTXTRecord
        env₂ fqdn).errors := by
    rw [multiDelete_errors, multiDelete_errors]
    simp only [newMulti_servers, newMulti_zone, newMulti_tsigKey, newMulti_tsigAlg,
      newMulti_tsigSec]
    exact filterMap_congr_fn _ _ servers (fun srv => by rw [(hobs srv).2])
  have hres : ((NewMultiServerDNS servers zone tsigKey tsigAlg sec₁).DeleteTXTRecord
        env₁ fqdn).result
      = ((NewMultiServerDNS servers zone tsigKey tsigAlg sec₂).DeleteTXTRecord
        env₂ fqdn).result := by
    rw [multiDelete_result, multiDelete_result, hsc, herrs]
  have hlogs : ((NewMultiServerDNS servers zone tsigKey tsigAlg sec₁).DeleteTXTRecord
        env₁ fqdn).logs
      = ((NewMultiServerDNS servers zone tsigKey tsigAlg sec₂).DeleteTXTRecord
        env₂ fqdn).logs := by
    rw [multiDelete_logs, multiDelete_logs, hsc, herrs]
    simp only [newMulti_servers, newMulti_zone, newMulti_tsigKey, newMulti_tsigAlg,
      newMulti_tsigSec]
    rw [map_congr_fn _ _ servers (fun srv =>
      serverOutcomeLogs_congr "Successfully deleted TXT record on server"
        "Failed to delete TXT record on server" fqdn srv _ _ (hobs srv).1 (hobs srv).2)]
  exact ⟨hlogs, hsc, herrs, hres⟩

theorem present_obs_congr (s : DNS01Solver) (env : Env) (ch : ChallengeRequest)
    (v₁ v₂ : String) :
    (s.Present { env with secretResult := Except.ok v₁ } ch).logs
      = (s.Present { env with secretResult := Except.ok v₂ } ch).logs
    ∧ (s.Present { env with secretResult := Except.ok v₁ } ch).result
      = (s.Present { env with secretResult := Except.ok v₂ } ch).result := by
  unfold DNS01Solver.Present
  cases hp : parseConfig ch.config
  case error e => simp [hp]
  case ok config =>
    simp only [hp]
    unfold DNS01Solver.getTSIGSecret
    cases hs : s.initialized
    · simp [hs]
    · simp only [hs, Bool.not_true, Bool.false_eq_true, if_false]
      obtain ⟨hlogs, hsc, herrs, hres⟩ := multiAdd_obs_congr config.servers config.zone
        config.tsigKeyName config.tsigAlgorithm v₁ v₂
        { env with secretResult := Except.ok v₁ } { env with secretResult := Except.ok v₂ }
        rfl ch.resolvedFQDN ch.key config.ttl
      rw [hres]
      cases hr : ((NewMultiServerDNS config.servers config.zone config.tsigKeyName
          config.tsigAlgorithm v₂).AddTXTRecord { env with secretResult := Except.ok v₂ }
          ch.resolvedFQDN ch.key config.ttl).result
      · simp only [hr]
        exact ⟨by rw [hlogs], by trivial⟩
      · simp only [hr]
        exact ⟨by rw [hlogs], by trivial⟩

theorem cleanup_obs_congr (s : DNS01Solver) (env : Env) (ch : ChallengeRequest)
    (v₁ v₂ : String) :
    (s.CleanUp { env with secretResult := Except.ok v₁ } ch).logs
      = (s.CleanUp { env with secretResult := Except.ok v₂ } ch).logs
    ∧ (s.CleanUp { env with secretResult := Except.ok v₁ } ch).result
      = (s.CleanUp { env with secretResult := Except.ok v₂ } ch).result := by
  unfold DNS01Solver.CleanUp
  cases hp : parseConfig ch.config
  case error e => simp [hp]
  case ok config =>
    simp only [hp]
    unfold DNS01Solver.getTSIGSecret
    cases hs : s.initialized
    · simp [hs]
    · simp only [hs, Bool.not_true, Bool.false_eq_true, if_false]
      obtain ⟨hlogs, hsc, herrs, hres⟩ := multiDelete_obs_congr config.servers config.zone
        config.tsigKeyName config.tsigAlgorithm v₁ v₂
        { env with secretResult := Except.ok v₁ } { env with secretResult := Except.ok v₂ }
        rfl ch.resolvedFQDN
      rw [hres]
      cases hr : ((NewMultiServerDNS config.servers config.zone config.tsigKeyName
          config.tsigAlgorithm v₂).DeleteTXTRecord { env with secretResult := Except.ok v₂ }
          ch.resolvedFQDN).result
      · simp only [hr]
        exact ⟨by rw [hlogs], by trivial⟩
      · simp only [hr]
        exact ⟨by rw [hlogs], by trivial⟩

/-- **C3 amended**: the TSIG secret never influences the logged or
returned output of `Present` or `CleanUp`: two runs that differ only in
the resolved TSIG secret produce identical log events and identical
returned results (the secret reaches only the key material handed to the
wire transport).  The challenge key, by contrast, IS logged — see the
counterexample — so the original claim's "or the challenge key" part
fails. -/
theorem tsig_secret_noninterference (s : DNS01Solver) (env : Env)
    (ch : ChallengeRequest) (v₁ v₂ : String) :
    (s.Present { env with secretResult := Except.ok v₁ } ch).logs
      = (s.Present { env with secretResult := Except.ok v₂ } ch).logs
    ∧ (s.Present { env with secretResult := Except.ok v₁ } ch).result
      = (s.Present { env with secretResult := Except.ok v₂ } ch).result
    ∧ (s.CleanUp { env with secretResult := Except.ok v₁ } ch).logs
      = (s.CleanUp { env with secretResult := Except.ok v₂ } ch).logs
    ∧ (s.CleanUp { env with secretResult := Except.ok v₁ } ch).result
      = (s.CleanUp { env with secretResult := Except.ok v₂ } ch).result := by
  obtain ⟨h₁, h₂⟩ := present_obs_congr s env ch v₁ v₂
  obtain ⟨h₃, h₄⟩ := cleanup_obs_congr s env ch v₁ v₂
  exact ⟨h₁, h₂, h₃, h₄⟩

/-- **C3 counterexample**: two `Present` invocations differing only in the
challenge key produce different log output — the first log event carries
the key verbatim in its `key` field — so the claim that the logged output
never contains the challenge key (equivalently, is unchanged across runs
differing only in the secret and the key) is false of the code. -/
theorem challenge_key_logged_counterexample :
    (demoCh "tokenA").resolvedFQDN = (demoCh "tokenB").resolvedFQDN
    ∧ (demoCh "tokenA").resourceNamespace = (demoCh "tokenB").resourceNamespace
    ∧ (demoCh "tokenA").config = (demoCh "tokenB").config
    ∧ (demoSolver.Present allOkEnv (demoCh "tokenA")).logs.head?
        = some ("Presenting DNS01 challenge",
            [("fqdn", "_acme-challenge.app.example.com."), ("key", "tokenA"),
             ("namespace", "default")])
    ∧ (demoSolver.Present allOkEnv (demoCh "tokenA")).logs
        ≠ (demoSolver.Present allOkEnv (demoCh "tokenB")).logs := by
  refine ⟨rfl, rfl, rfl, rfl, ?_⟩
  intro hcontra
  have h := congrArg List.head? hcontra
  rw [show (demoSolver.Present allOkEnv (demoCh "tokenA")).logs.head?
      = some ("Presenting DNS01 challenge",
          [("fqdn", "_acme-challenge.app.example.com."), ("key", "tokenA"),
           ("namespace", "default")]) from rfl,
    show (demoSolver.Present allOkEnv (demoCh "tokenB")).logs.head?
      = some ("Presenting DNS01 challenge",
          [("fqdn", "_acme-challenge.app.example.com."), ("key", "tokenB"),
           ("namespace", "default")]) from rfl] at h
  simp at h

/-- **C6**: whenever configuration parsing fails, `Present` and `CleanUp`
return the configuration error with no secret-store lookup and no DNS
exchange; whenever secret resolution fails, they return the secret error
before any DNS exchange. -/
theorem config_and_secret_errors_short_circuit (s : DNS01Solver) (env : Env)
    (ch : ChallengeRequest) :
    (∀ e, parseConfig ch.config = Except.error e →
        (s.Present env ch).secretLookups = 0
        ∧ (s.Present env ch).exchanges = []
        ∧ (s.Present env ch).result = Except.error ("failed to parse config: " ++ e)
        ∧ (s.CleanUp env ch).secretLookups = 0
        ∧ (s.CleanUp env ch).exchanges = []
        ∧ (s.CleanUp env ch).result = Except.error ("failed to parse config: " ++ e))
    ∧ (∀ cfg e n, parseConfig ch.config = Except.ok cfg →
        s.getTSIGSecret env ch.resourceNamespace cfg.tsigSecretName = (Except.error e, n) →
        (s.Present env ch).exchanges = []
        ∧ (s.Present env ch).result = Except.error ("failed to get TSIG secret: " ++ e)
        ∧ (s.CleanUp env ch).exchanges = []
        ∧ (s.CleanUp env ch).result = Except.error ("failed to get TSIG secret: " ++ e)) := by
  constructor
  · intro e he
    simp [DNS01Solver.Present, DNS01Solver.CleanUp, he]
  · intro cfg e n hcfg hsec
    simp [DNS01Solver.Present, DNS01Solver.CleanUp, hcfg, hsec]

/-- Witness for C6: the config missing `servers` short-circuits `Present`
with zero secret lookups and zero exchanges; a failing secret store
short-circuits before any exchange. -/
theorem config_and_secret_errors_short_circuit_witness :
    ((demoSolver.Present allOkEnv demoChBadConfig).secretLookups = 0
      ∧ (demoSolver.Present allOkEnv demoChBadConfig).exchanges = []
      ∧ (demoSolver.Present allOkEnv demoChBadConfig).result
        = Except.error "failed to parse config: servers list is required")
    ∧ (demoSolver.Present { allOkEnv with secretResult := Except.error "boom" }
        (demoCh "tokenA")).exchanges = []
    ∧ (demoSolver.CleanUp { allOkEnv with secretResult := Except.error "boom" }
        (demoCh "tokenA")).exchanges = [] := by
  have h₁ := (config_and_secret_errors_short_circuit demoSolver allOkEnv demoChBadConfig).1
    "servers list is required" (by rfl)
  have h₂ := (config_and_secret_errors_short_circuit demoSolver
      { allOkEnv with secretResult := Except.error "boom" } (demoCh "tokenA")).2
    { servers := ["10.0.0.1"], zone := "example.com",
      tsigKeyName := "tsig-key", tsigAlgorithm := "hmac-sha256",
      tsigSecretName := "tsig-secret", tsigSecretKey := "secret", ttl := 60 }
    "failed to get secret default/tsig-secret: boom" 1 (by rfl) (by rfl)
  exact ⟨⟨h₁.1, h₁.2.1, h₁.2.2.1⟩, h₂.1, h₂.2.2.1⟩

/-- **C10**: a configuration with a negative `ttl` passes `parseConfig`
without error (no layer validates non-negativity), and the single-server
add puts the unsigned 32-bit conversion `ttl mod 2^32` on the wire as
the record's TTL. -/
theorem negative_ttl_accepted_and_wrapped (raw : RawConfig) (t : Int)
    (httl : raw.ttl = some t) (hneg : t < 0)
    (hs : raw.servers.getD [] ≠ []) (hz : raw.zone.getD "" ≠ "")
    (hk : raw.tsigKeyName.getD "" ≠ "") (hn : raw.tsigSecretName.getD "" ≠ "") :
    (∃ cfg, parseConfig (some raw) = Except.ok cfg ∧ cfg.ttl = t)
    ∧ (∀ (c : RFC2136Client) (env : Env) (fqdn value : String),
        (c.AddTXTRecord env fqdn value t).calls.map
            (fun call => call.msg.updateSection.map UpdateRR.ttl)
          = [[((t % (2 ^ 32 : Int)).toNat)]]) := by
  constructor
  · have hlen : ¬ ((raw.servers.getD []).length = 0) := by
      simpa [List.length_eq_zero] using hs
    refine ⟨({ servers := raw.servers.getD []
               zone := raw.zone.getD ""
               tsigKeyName := raw.tsigKeyName.getD ""
               tsigAlgorithm := raw.tsigAlgorithm.getD "hmac-sha256"
               tsigSecretName := raw.tsigSecretName.getD ""
               tsigSecretKey := raw.tsigSecretKey.getD "secret"
               ttl := raw.ttl.getD 60 } : Config), ?_, ?_⟩
    · simp [parseConfig, hlen, hz, hk, hn]
    · simp [httl]
  · intro c env fqdn value
    rw [clientAdd_calls]
    simp [RFC2136Client.buildAddMsg, msgInsert, msgSetTsig, setUpdate, uint32ofInt]

/-- Witness for C10 at `ttl = -1`: the demo document parses with
`ttl = -1` and the wire TTL is `2^32 - 1 = 4294967295`. -/
theorem negative_ttl_accepted_and_wrapped_witness :
    (∃ cfg, parseConfig (some demoRawNegTTL) = Except.ok cfg ∧ cfg.ttl = -1)
    ∧ (demoClient.AddTXTRecord allOkEnv "f.example.com." "v" (-1)).calls.map
        (fun call => call.msg.updateSection.map UpdateRR.ttl) = [[4294967295]] := by
  have h := negative_ttl_accepted_and_wrapped demoRawNegTTL (-1) rfl (by decide)
    (by decide) (by decide) (by decide) (by decide)
  refine ⟨h.1, ?_⟩
  rw [h.2 demoClient allOkEnv "f.example.com." "v"]
  decide

end IstioDns
